import Mathlib

/-!
Shallow embedding of the utility modules of the
Luxottica-Customer-Churn-Classification repository:
`src/luxottica_churn/utils/common.py` and `src/luxottica_churn/utils/logger.py`.

File-system effects are modelled by explicit state passing; Python exceptions
by `Except`; log statements by explicit lists of log entries.
-/

/-- YAML values as produced by `yaml.safe_load` (floats omitted: no claim
involves a float scalar). -/
inductive Yaml where
  | null
  | bool (b : Bool)
  | int (n : Int)
  | str (s : String)
  | list (xs : List Yaml)
  | map (kvs : List (String × Yaml))

/-- Python truthiness of a loaded YAML value: `not content` in
`read_yaml` is true exactly on these values. -/
def Yaml.falsy : Yaml → Bool
  | .null => true
  | .bool b => !b
  | .int n => n == 0
  | .str s => s == ""
  | .list xs => xs.isEmpty
  | .map kvs => kvs.isEmpty

/-- Python exceptions that the embedded functions raise or propagate. -/
inductive PyExn where
  | ioError (msg : String)
  | yamlError (msg : String)
  | boxValueError (msg : String)
  | boxError (msg : String)
  | schemaValueError (missing : List String)
deriving DecidableEq

deriving instance DecidableEq for Except

/-- `box.exceptions.BoxValueError` subclasses `ValueError`, and the
schema-validation failure is a literal `ValueError`. -/
def PyExn.isValueError : PyExn → Bool
  | .boxValueError _ => true
  | .schemaValueError _ => true
  | _ => false

/-- Severity of a log statement. -/
inductive LogLevel where
  | info
  | warning
  | error
deriving DecidableEq

/-- One emitted log record. -/
structure LogEntry where
  level : LogLevel
  msg : String
deriving DecidableEq

/-- A `ConfigBox` wrapping a YAML mapping (dot-notation access over the
underlying dict). -/
structure ConfigBox where
  data : List (String × Yaml)

/-- `ConfigBox(content)`: the constructor succeeds on a mapping and raises a
box error on any non-mapping value. -/
def mkConfigBox : Yaml → Except PyExn ConfigBox
  | .map kvs => .ok ⟨kvs⟩
  | _ => .error (.boxError "First argument must be mapping or iterable")

/-- `read_yaml(path_to_yaml)`.  The argument is the outcome of
`open` + `yaml.safe_load` on the file (an exception or the parsed value);
the result pairs the Python outcome with the log records emitted.
Mirrors: try / `if not content: raise BoxValueError` / `logger.info` /
`return ConfigBox(content)` / `except Exception: logger.error; raise`. -/
def read_yaml (loaded : Except PyExn Yaml) :
    Except PyExn ConfigBox × List LogEntry :=
  match loaded with
  | .error e => (.error e, [⟨.error, "Error reading YAML"⟩])
  | .ok content =>
    if content.falsy then
      (.error (.boxValueError "YAML file is empty"),
       [⟨.error, "Error reading YAML"⟩])
    else
      match mkConfigBox content with
      | .ok box => (.ok box, [⟨.info, "YAML loaded"⟩])
      | .error e => (.error e, [⟨.info, "YAML loaded"⟩, ⟨.error, "Error reading YAML"⟩])

/-- Round `num / den` to the nearest integer, ties to even: the rounding
Python's `format(x, ".2f")` applies (here to the exact value `num / den`,
which the relevant binary doubles represent exactly). -/
def roundHalfEven (num den : Nat) : Nat :=
  if 2 * (num % den) < den then num / den
  else if den < 2 * (num % den) then num / den + 1
  else if (num / den) % 2 = 0 then num / den else num / den + 1

/-- Zero-pad a two-digit fraction part. -/
def pad2 (m : Nat) : String :=
  if m < 10 then "0" ++ toString m else toString m

/-- `f"{num / den:.2f}"` for natural `num`, `den`. -/
def formatTwoDec (num den : Nat) : String :=
  let t := roundHalfEven (num * 100) den
  toString (t / 100) ++ "." ++ pad2 (t % 100)

/-- `get_size(path)` applied to the file's byte count
(`os.path.getsize(path)`). -/
def get_size (size_bytes : Nat) : String :=
  if size_bytes < 1024 then toString size_bytes ++ " B"
  else if size_bytes < 1024 ^ 2 then formatTwoDec size_bytes 1024 ++ " KB"
  else formatTwoDec size_bytes (1024 ^ 2) ++ " MB"

example : get_size 1023 = "1023 B" := by decide
example : get_size 1024 = "1.00 KB" := by decide
example : get_size 1536 = "1.50 KB" := by decide
example : get_size (1024 ^ 2) = "1.00 MB" := by decide

/-- The columns of a pandas DataFrame as `validate_data_schema` consults them:
the column names (`df.columns`) and each column's dtype name
(`df[col].dtype`, compared by `pd.api.types.is_dtype_equal`). -/
structure DataFrame where
  columns : List String
  dtypes : List (String × String)

/-- The schema mapping read from the schema YAML:
`required_columns` and `dtypes`. -/
structure Schema where
  required_columns : List String
  dtypes : List (String × String)

/-- `set(schema.required_columns) - set(df.columns)`. -/
def missingCols (df : DataFrame) (schema : Schema) : List String :=
  (schema.required_columns.filter (fun c => !df.columns.contains c)).dedup

/-- The warning records emitted by the dtype loop of `validate_data_schema`:
one per schema dtype entry whose column is present with a different dtype. -/
def dtypeWarnings (df : DataFrame) (schema : Schema) : List LogEntry :=
  (schema.dtypes.filter (fun cd =>
      df.columns.contains cd.1 && !(df.dtypes.lookup cd.1 == some cd.2))).map
    (fun cd => ⟨.warning, "dtype mismatch on column " ++ cd.1⟩)

/-- `validate_data_schema(df, schema_path)` after the schema YAML has been
read (the `read_yaml` step is embedded separately above).  Raises `ValueError`
naming the missing set when required columns are absent; otherwise logs a
warning per dtype mismatch and returns `True`. -/
def validate_data_schema (df : DataFrame) (schema : Schema) :
    Except PyExn Bool × List LogEntry :=
  let missing := missingCols df schema
  if missing.isEmpty then
    (.ok true,
     dtypeWarnings df schema ++ [⟨.info, "Data schema validation passed"⟩])
  else
    (.error (.schemaValueError missing),
     [⟨.error, "Missing columns"⟩])

example :
    (validate_data_schema ⟨["a"], [("a", "int64")]⟩
      ⟨["a", "b"], [("a", "int64")]⟩).1 =
    .error (.schemaValueError ["b"]) := by decide

example :
    (validate_data_schema ⟨["a"], [("a", "int64")]⟩
      ⟨["a"], [("a", "object")]⟩).1 = .ok true := by decide

/-- A directory path, as its list of components. -/
abbrev DirPath := List String

/-- The directory and every ancestor directory `os.makedirs` creates for it. -/
def ancestorDirs (p : DirPath) : List DirPath :=
  (List.range p.length).map (fun k => p.take (k + 1))

/-- Add one directory to the set of existing directories if absent. -/
def insertDir (fs : List DirPath) (d : DirPath) : List DirPath :=
  if d ∈ fs then fs else fs ++ [d]

/-- `os.makedirs(path, exist_ok=True)` on the set of existing directories. -/
def makedirs (fs : List DirPath) (p : DirPath) : List DirPath :=
  (ancestorDirs p).foldl insertDir fs

/-- `create_directories(path_to_directories)` acting on the set of existing
directories (the `verbose` logging does not touch the file system). -/
def create_directories (path_to_directories : List DirPath)
    (fs : List DirPath) : List DirPath :=
  path_to_directories.foldl makedirs fs

theorem mem_foldl_insertDir (ds : List DirPath) (fs : List DirPath)
    (x : DirPath) :
    x ∈ ds.foldl insertDir fs ↔ x ∈ fs ∨ x ∈ ds := by
  induction ds generalizing fs with
  | nil => simp
  | cons d ds ih =>
    simp only [List.foldl_cons, ih, insertDir]
    by_cases hd : d ∈ fs
    · simp [hd]
      constructor
      · rintro (hx | hx)
        · exact Or.inl hx
        · exact Or.inr (Or.inr hx)
      · rintro (hx | hx | hx)
        · exact Or.inl hx
        · exact Or.inl (hx ▸ hd)
        · exact Or.inr hx
    · simp [hd, List.mem_append, or_assoc]

theorem foldl_insertDir_of_mem (ds : List DirPath) (fs : List DirPath)
    (h : ∀ d ∈ ds, d ∈ fs) :
    ds.foldl insertDir fs = fs := by
  induction ds with
  | nil => rfl
  | cons d ds ih =>
    have hd : d ∈ fs := h d (List.mem_cons_self d ds)
    simp only [List.foldl_cons, insertDir, if_pos hd]
    exact ih (fun x hx => h x (List.mem_cons_of_mem d hx))

theorem mem_create_directories (ps : List DirPath) (fs : List DirPath)
    (x : DirPath) :
    x ∈ create_directories ps fs ↔
      x ∈ fs ∨ ∃ p ∈ ps, x ∈ ancestorDirs p := by
  induction ps generalizing fs with
  | nil => simp [create_directories]
  | cons p ps ih =>
    simp only [create_directories, List.foldl_cons] at *
    rw [ih, makedirs, mem_foldl_insertDir]
    constructor
    · rintro ((hx | hx) | ⟨q, hq, hx⟩)
      · exact Or.inl hx
      · exact Or.inr ⟨p, List.mem_cons_self p ps, hx⟩
      · exact Or.inr ⟨q, List.mem_cons_of_mem p hq, hx⟩
    · rintro (hx | ⟨q, hq, hx⟩)
      · exact Or.inl (Or.inl hx)
      · rcases List.mem_cons.mp hq with rfl | hq
        · exact Or.inl (Or.inr hx)
        · exact Or.inr ⟨q, hq, hx⟩

theorem create_directories_of_present (ps : List DirPath) (fs : List DirPath)
    (h : ∀ p ∈ ps, ∀ d ∈ ancestorDirs p, d ∈ fs) :
    create_directories ps fs = fs := by
  induction ps generalizing fs with
  | nil => rfl
  | cons p ps ih =>
    simp only [create_directories, List.foldl_cons] at *
    rw [makedirs, foldl_insertDir_of_mem _ _ (h p (List.mem_cons_self p ps))]
    exact ih fs (fun q hq => h q (List.mem_cons_of_mem p hq))

/-- A JSON value as written by `json.dump` and read by `json.load`. -/
inductive JsonVal where
  | null
  | bool (b : Bool)
  | num (n : Int)
  | str (s : String)
  | arr (xs : List JsonVal)
  | obj (kvs : List (String × JsonVal))

/-- The JSON document type of the helpers: a Python `dict`
(`save_json`'s annotation) with string keys. -/
abbrev JsonDict := List (String × JsonVal)

/-- A pandas DataFrame as the CSV helpers handle it: a row index and named
value columns.  Cell values are carried as integers; the textual encoding of
an individual cell round-trips through pandas and is abstracted. -/
structure CsvFrame where
  index : List Int
  cols : List (String × List Int)
deriving DecidableEq

/-- A CSV file: the header row and the data rows. -/
structure CsvFile where
  header : List String
  rows : List (List Int)
deriving DecidableEq

/-- Row-major transposition of column values, one row per index entry. -/
def transposeVals (colsVals : List (List Int)) (n : Nat) : List (List Int) :=
  (List.range n).map (fun i => colsVals.map (fun c => c.getD i 0))

/-- `DataFrame.to_csv`: the header always (default `header=True`), the row
index as a leading unnamed column when `withIndex` (default `index=True`). -/
def to_csv (df : CsvFrame) (withIndex : Bool) : CsvFile :=
  let names := df.cols.map Prod.fst
  let body := transposeVals (df.cols.map Prod.snd) df.index.length
  if withIndex then
    ⟨"" :: names, List.zipWith (fun i r => i :: r) df.index body⟩
  else
    ⟨names, body⟩

/-- pandas' naming of the file's columns: a column with an empty header cell
is named `Unnamed: <position>`. -/
def headerNames (hs : List String) : List String :=
  hs.enum.map (fun jn => if jn.2 = "" then "Unnamed: " ++ toString jn.1 else jn.2)

/-- `pd.read_csv` with default arguments: every column of the file becomes a
data column (`index_col=None`), a column with an empty header is named
`Unnamed: <position>`, and the frame gets a fresh `RangeIndex`. -/
def read_csv (f : CsvFile) : CsvFrame :=
  ⟨(List.range f.rows.length).map Int.ofNat,
   (headerNames f.header).enum.map
     (fun jn => (jn.2, f.rows.map (fun r => r.getD jn.1 0)))⟩

/-- What a file holds: a JSON document, a joblib-pickled blob (opaque,
identified by its payload), or a CSV file. -/
inductive FileData where
  | jsonDoc (d : JsonDict)
  | binBlob (x : Nat)
  | csvDoc (f : CsvFile)

/-- The file system as an association of paths to file contents; the head of
the list is the most recent write. -/
abbrev FS := List (String × FileData)

/-- Writing a file at a path (overwrites any previous content). -/
def writeFile (fs : FS) (p : String) (d : FileData) : FS :=
  (p, d) :: fs

/-- `save_json(path, data)`. -/
def save_json (fs : FS) (path : String) (data : JsonDict) : FS :=
  writeFile fs path (.jsonDoc data)

/-- A `ConfigBox` over a loaded JSON document (`load_json`'s return type). -/
structure JsonConfigBox where
  data : JsonDict

/-- `load_json(path)`: `none` models the exception on a missing or
non-JSON file. -/
def load_json (fs : FS) (path : String) : Option JsonConfigBox :=
  match fs.lookup path with
  | some (.jsonDoc d) => some ⟨d⟩
  | _ => none

/-- `save_bin(data, path)` (joblib dump). -/
def save_bin (fs : FS) (data : Nat) (path : String) : FS :=
  writeFile fs path (.binBlob data)

/-- `load_bin(path)` (joblib load). -/
def load_bin (fs : FS) (path : String) : Option Nat :=
  match fs.lookup path with
  | some (.binBlob x) => some x
  | _ => none

/-- `save_csv(data, path)`; `withIndex` is pandas' `index` keyword, `True`
when not passed. -/
def save_csv (fs : FS) (data : CsvFrame) (path : String)
    (withIndex : Bool) : FS :=
  writeFile fs path (.csvDoc (to_csv data withIndex))

/-- `load_csv(path)`. -/
def load_csv (fs : FS) (path : String) : Option CsvFrame :=
  match fs.lookup path with
  | some (.csvDoc f) => some (read_csv f)
  | _ => none

/-- `save_model(model, path, metadata)`: `save_bin` then, when `metadata` is
truthy (`if metadata:`, so neither `None` nor `{}`), `save_json` of the
metadata at `f"{path}.metadata.json"`. -/
def save_model (fs : FS) (model : Nat) (path : String)
    (metadata : Option JsonDict) : FS :=
  let fs1 := save_bin fs model path
  match metadata with
  | none => fs1
  | some md =>
    if md.isEmpty then fs1
    else save_json fs1 (path ++ ".metadata.json") md

/-- The configuration `setup_logger` installs on its `RotatingFileHandler`. -/
structure RotatingFileHandlerCfg where
  filename : String
  maxBytes : Nat
  backupCount : Nat

/-- The logger `setup_logger` returns: name, level, the rotating file handler
and whether a console handler was added. -/
structure LoggerCfg where
  name : String
  level : Nat
  fileHandler : RotatingFileHandlerCfg
  consoleHandler : Bool

/-- `os.path.join` on a POSIX system. -/
def pathJoin (dir file : String) : String := dir ++ "/" ++ file

/-- `setup_logger(...)`; `today` is `datetime.now().strftime('%Y-%m-%d')`. -/
def setup_logger (name : String) (log_level : Nat) (log_dir : String)
    (console_output : Bool) (max_log_size : Nat) (backup_count : Nat)
    (today : String) : LoggerCfg :=
  ⟨name, log_level,
   ⟨pathJoin log_dir (today ++ ".log"),
    max_log_size * 1024 * 1024, backup_count⟩,
   console_output⟩

theorem roundHalfEven_close (num den : Nat) (hden : 0 < den) :
    ((roundHalfEven num den : Int) * den - num).natAbs * 2 ≤ den := by
  have h1 : num % den < den := Nat.mod_lt _ hden
  have h2 : den * (num / den) + num % den = num := Nat.div_add_mod num den
  unfold roundHalfEven
  generalize hr : num % den = r at h1 h2 ⊢
  generalize hq : num / den = q at h2 ⊢
  have h4 : (den : Int) * q + r = num := by exact_mod_cast h2
  split_ifs with ha hb hc
  · have h3 : (q : Int) * den - num = -(r : Int) := by linarith
    rw [h3]
    omega
  · have h3 : ((q + 1 : Nat) : Int) * den - num = (den : Int) - r := by
      push_cast
      linarith
    rw [h3]
    omega
  · have h3 : (q : Int) * den - num = -(r : Int) := by linarith
    rw [h3]
    omega
  · have h3 : ((q + 1 : Nat) : Int) * den - num = (den : Int) - r := by
      push_cast
      linarith
    rw [h3]
    omega

/-- C3: `get_size` returns the raw byte count with suffix `" B"` below 1024
bytes, and above that the size divided by 1024 (resp. 1024²) formatted to two
decimals with suffix `" KB"` (resp. `" MB"`); the two-decimal value is within
half a hundredth of the exact quotient. -/
theorem C3_get_size_format (n : Nat) :
    (n < 1024 → get_size n = toString n ++ " B") ∧
    (1024 ≤ n → n < 1024 ^ 2 →
      get_size n = formatTwoDec n 1024 ++ " KB" ∧
      ((roundHalfEven (n * 100) 1024 : Int) * 1024 - n * 100).natAbs * 2
        ≤ 1024) ∧
    (1024 ^ 2 ≤ n →
      get_size n = formatTwoDec n (1024 ^ 2) ++ " MB" ∧
      ((roundHalfEven (n * 100) (1024 ^ 2) : Int) * (1024 ^ 2)
          - n * 100).natAbs * 2 ≤ 1024 ^ 2) := by
  refine ⟨fun h => ?_, fun h1 h2 => ⟨?_, ?_⟩, fun h => ⟨?_, ?_⟩⟩
  · simp [get_size, h]
  · simp only [get_size]
    rw [if_neg (by omega), if_pos h2]
  · exact roundHalfEven_close (n * 100) 1024 (by norm_num)
  · simp only [get_size]
    rw [if_neg (by omega), if_neg (by omega)]
  · exact roundHalfEven_close (n * 100) (1024 ^ 2) (by norm_num)

/-- Witness for C3 at the documented anchor points. -/
theorem C3_get_size_format_witness :
    get_size 1023 = "1023 B" ∧ get_size 1024 = "1.00 KB" := by
  exact ⟨(C3_get_size_format 1023).1 (by norm_num),
    ((C3_get_size_format 1024).2.1 (by norm_num) (by norm_num)).1⟩

/-- C9: `read_yaml` raises the (ValueError-derived) `BoxValueError` for every
parsed top-level value that is Python-falsy, not only for an empty file. -/
theorem C9_read_yaml_falsy (v : Yaml) (h : v.falsy = true) :
    (read_yaml (.ok v)).1 = .error (.boxValueError "YAML file is empty") ∧
    (PyExn.boxValueError "YAML file is empty").isValueError = true := by
  exact ⟨by simp [read_yaml, h], rfl⟩

/-- Witness for C9 on `false`, `0`, `""`, `[]` and `{}`. -/
theorem C9_read_yaml_falsy_witness :
    (read_yaml (.ok (.bool false))).1 =
      .error (.boxValueError "YAML file is empty") ∧
    (read_yaml (.ok (.int 0))).1 =
      .error (.boxValueError "YAML file is empty") ∧
    (read_yaml (.ok (.str ""))).1 =
      .error (.boxValueError "YAML file is empty") ∧
    (read_yaml (.ok (.list []))).1 =
      .error (.boxValueError "YAML file is empty") ∧
    (read_yaml (.ok (.map []))).1 =
      .error (.boxValueError "YAML file is empty") := by
  exact ⟨(C9_read_yaml_falsy (.bool false) rfl).1,
    (C9_read_yaml_falsy (.int 0) rfl).1,
    (C9_read_yaml_falsy (.str "") rfl).1,
    (C9_read_yaml_falsy (.list []) rfl).1,
    (C9_read_yaml_falsy (.map []) rfl).1⟩

/-- C6: `read_yaml` never swallows a failure: an exception from opening or
parsing is logged and re-raised unchanged, and a `ConfigBox` is returned only
when parsing succeeded with truthy (non-empty) content. -/
theorem C6_read_yaml_reraise (r : Except PyExn Yaml) :
    (∀ e, r = .error e →
      read_yaml r = (.error e, [⟨.error, "Error reading YAML"⟩])) ∧
    (∀ b, (read_yaml r).1 = .ok b →
      ∃ kvs, r = .ok (.map kvs) ∧ (Yaml.map kvs).falsy = false ∧
        b = ⟨kvs⟩) := by
  constructor
  · rintro e rfl
    rfl
  · intro b hb
    cases r with
    | error e => simp [read_yaml] at hb
    | ok v =>
      cases v with
      | null => simp [read_yaml, Yaml.falsy] at hb
      | bool bb =>
        cases bb <;> simp [read_yaml, Yaml.falsy, mkConfigBox] at hb
      | int n =>
        by_cases h0 : n = 0 <;>
          simp [read_yaml, Yaml.falsy, h0, mkConfigBox] at hb
      | str s =>
        by_cases h0 : s = "" <;>
          simp [read_yaml, Yaml.falsy, h0, mkConfigBox] at hb
      | list xs =>
        by_cases h0 : xs.isEmpty <;>
          simp [read_yaml, Yaml.falsy, h0, mkConfigBox] at hb
      | map kvs =>
        by_cases h0 : kvs.isEmpty
        · simp [read_yaml, Yaml.falsy, h0] at hb
        · refine ⟨kvs, rfl, by simp [Yaml.falsy, h0], ?_⟩
          simp [read_yaml, Yaml.falsy, h0, mkConfigBox] at hb
          exact hb.symm

/-- Witness for C6: a propagated open error and a successful load. -/
theorem C6_read_yaml_reraise_witness :
    read_yaml (.error (.ioError "No such file")) =
      (.error (.ioError "No such file"),
       [⟨.error, "Error reading YAML"⟩]) := by
  exact (C6_read_yaml_reraise (.error (.ioError "No such file"))).1
    (.ioError "No such file") rfl

theorem mem_missingCols (df : DataFrame) (schema : Schema) (c : String) :
    c ∈ missingCols df schema ↔
      c ∈ schema.required_columns ∧ c ∉ df.columns := by
  simp [missingCols, List.mem_dedup, List.mem_filter]

/-- C1: when some required column is absent, `validate_data_schema` raises a
`ValueError` carrying the missing set, which holds exactly the required
columns absent from the frame, and does not return. -/
theorem C1_validate_missing_columns (df : DataFrame) (schema : Schema)
    (h : ¬ ∀ c ∈ schema.required_columns, c ∈ df.columns) :
    (validate_data_schema df schema).1 =
      .error (.schemaValueError (missingCols df schema)) ∧
    ∀ c, c ∈ missingCols df schema ↔
      c ∈ schema.required_columns ∧ c ∉ df.columns := by
  push_neg at h
  obtain ⟨c, hc, hnc⟩ := h
  have hne : ¬ (missingCols df schema).isEmpty = true := by
    rw [List.isEmpty_iff]
    intro hnil
    have hmem := (mem_missingCols df schema c).2 ⟨hc, hnc⟩
    rw [hnil] at hmem
    exact List.not_mem_nil c hmem
  refine ⟨?_, mem_missingCols df schema⟩
  simp only [validate_data_schema]
  rw [if_neg hne]

/-- Witness for C1: a frame lacking the required column `"churn"`. -/
theorem C1_validate_missing_columns_witness :
    (validate_data_schema (DataFrame.mk ["customer_id"] [])
        (Schema.mk ["customer_id", "churn"] [])).1 =
      .error (.schemaValueError
        (missingCols (DataFrame.mk ["customer_id"] [])
          (Schema.mk ["customer_id", "churn"] []))) ∧
    ("churn" ∈ missingCols (DataFrame.mk ["customer_id"] [])
        (Schema.mk ["customer_id", "churn"] []) ↔
      "churn" ∈ ["customer_id", "churn"] ∧ "churn" ∉ ["customer_id"]) := by
  exact ⟨(C1_validate_missing_columns _ _ (by decide)).1,
    (C1_validate_missing_columns _ _ (by decide)).2 "churn"⟩

/-- C4: when every required column is present, `validate_data_schema` returns
`True` whatever the dtypes are; each dtype mismatch only adds a warning
record. -/
theorem C4_validate_dtype_warning (df : DataFrame) (schema : Schema)
    (h : ∀ c ∈ schema.required_columns, c ∈ df.columns) :
    (validate_data_schema df schema).1 = .ok true ∧
    ∀ cd ∈ schema.dtypes, cd.1 ∈ df.columns →
      df.dtypes.lookup cd.1 ≠ some cd.2 →
      (⟨.warning, "dtype mismatch on column " ++ cd.1⟩ : LogEntry) ∈
        (validate_data_schema df schema).2 := by
  have hempty : (missingCols df schema).isEmpty = true := by
    rw [List.isEmpty_iff, List.eq_nil_iff_forall_not_mem]
    intro c hmem
    obtain ⟨hc, hnc⟩ := (mem_missingCols df schema c).1 hmem
    exact hnc (h c hc)
  constructor
  · simp only [validate_data_schema]
    rw [if_pos hempty]
  · intro cd hcd hcol hdt
    simp only [validate_data_schema]
    rw [if_pos hempty]
    simp only [List.mem_append]
    left
    simp only [dtypeWarnings, List.mem_map]
    refine ⟨cd, ?_, rfl⟩
    simp only [List.mem_filter]
    refine ⟨hcd, ?_⟩
    simp [hcol, hdt]

/-- Witness for C4: all required columns present, one dtype mismatch. -/
theorem C4_validate_dtype_warning_witness :
    (validate_data_schema (DataFrame.mk ["churn"] [("churn", "object")])
        (Schema.mk ["churn"] [("churn", "int64")])).1 = .ok true ∧
    (⟨.warning, "dtype mismatch on column " ++ "churn"⟩ : LogEntry) ∈
      (validate_data_schema (DataFrame.mk ["churn"] [("churn", "object")])
        (Schema.mk ["churn"] [("churn", "int64")])).2 := by
  exact ⟨(C4_validate_dtype_warning _ _ (by decide)).1,
    (C4_validate_dtype_warning _ _ (by decide)).2 ("churn", "int64")
      (by decide) (by decide) (by decide)⟩

/-- C5: `create_directories` is idempotent, and on directories that all exist
already it succeeds and changes nothing. -/
theorem C5_create_directories_idempotent :
    (∀ ps fs, create_directories ps (create_directories ps fs) =
      create_directories ps fs) ∧
    (∀ ps fs, (∀ p ∈ ps, ∀ d ∈ ancestorDirs p, d ∈ fs) →
      create_directories ps fs = fs) := by
  constructor
  · intro ps fs
    apply create_directories_of_present
    intro p hp d hd
    exact (mem_create_directories ps fs d).2 (Or.inr ⟨p, hp, hd⟩)
  · exact create_directories_of_present

/-- Witness for C5: creating `a` and `a/b` when both already exist. -/
theorem C5_create_directories_idempotent_witness :
    create_directories [["a"], ["a", "b"]] [["a"], ["a", "b"]] =
      [["a"], ["a", "b"]] := by
  exact C5_create_directories_idempotent.2 [["a"], ["a", "b"]]
    [["a"], ["a", "b"]] (by decide)

/-- C8: `setup_logger` names the log file after the current date inside the
log directory (so the target file changes exactly with the date), sets the
rotation threshold to `max_log_size` megabytes and keeps `backup_count`
backups. -/
theorem C8_setup_logger_config (name : String) (log_level : Nat)
    (log_dir : String) (console_output : Bool)
    (max_log_size backup_count : Nat) (today d1 d2 : String) :
    (setup_logger name log_level log_dir console_output max_log_size
        backup_count today).fileHandler.filename =
      log_dir ++ "/" ++ today ++ ".log" ∧
    (setup_logger name log_level log_dir console_output max_log_size
        backup_count today).fileHandler.maxBytes =
      max_log_size * 1024 * 1024 ∧
    (setup_logger name log_level log_dir console_output max_log_size
        backup_count today).fileHandler.backupCount = backup_count ∧
    ((setup_logger name log_level log_dir console_output max_log_size
        backup_count d1).fileHandler.filename =
      (setup_logger name log_level log_dir console_output max_log_size
        backup_count d2).fileHandler.filename → d1 = d2) := by
  refine ⟨by simp [setup_logger, pathJoin, String.append_assoc], rfl, rfl, ?_⟩
  intro hf
  simp only [setup_logger, pathJoin] at hf
  have hdata := congrArg String.data hf
  simp only [String.data_append] at hdata
  have h1 := List.append_cancel_left hdata
  have h2 := List.append_cancel_right h1
  cases d1
  cases d2
  exact congrArg String.mk h2

/-- Witness for C8 on the default configuration at a fixed date. -/
theorem C8_setup_logger_config_witness :
    (setup_logger "luxottica_churn" 20 "logs" true 10 5
        "2026-10-12").fileHandler.filename = "logs/2026-10-12.log" ∧
    (setup_logger "luxottica_churn" 20 "logs" true 10 5
        "2026-10-12").fileHandler.maxBytes = 10485760 ∧
    (setup_logger "luxottica_churn" 20 "logs" true 10 5
        "2026-10-12").fileHandler.backupCount = 5 ∧
    "2026-10-12" = "2026-10-12" := by
  have h := C8_setup_logger_config "luxottica_churn" 20 "logs" true 10 5
    "2026-10-12" "2026-10-12" "2026-10-12"
  exact ⟨by rw [h.1]; decide, h.2.1, h.2.2.1, h.2.2.2 rfl⟩

theorem metadata_path_ne (p : String) : (p ++ ".metadata.json" == p) = false := by
  rw [beq_eq_false_iff_ne]
  intro h
  have hlen := congrArg String.length h
  rw [String.length_append] at hlen
  have hsuf : (".metadata.json" : String).length = 14 := rfl
  omega

theorem metadata_path_ne_left (p : String) :
    (p == p ++ ".metadata.json") = false := by
  rw [beq_eq_false_iff_ne]
  intro h
  have hlen := congrArg String.length h
  rw [String.length_append] at hlen
  have hsuf : (".metadata.json" : String).length = 14 := rfl
  omega

/-- C10: with `metadata` equal to `None` or `{}`, `save_model` only writes
the model blob at `path`; no sidecar file appears, and the content at
`path + ".metadata.json"` is whatever the file system already had there. -/
theorem C10_save_model_empty_metadata (fs : FS) (model : Nat)
    (path : String) :
    save_model fs model path none = writeFile fs path (.binBlob model) ∧
    save_model fs model path (some []) =
      writeFile fs path (.binBlob model) ∧
    (save_model fs model path (some [])).lookup
        (path ++ ".metadata.json") =
      fs.lookup (path ++ ".metadata.json") := by
  refine ⟨rfl, rfl, ?_⟩
  show ((path, FileData.binBlob model) :: fs).lookup
    (path ++ ".metadata.json") = fs.lookup (path ++ ".metadata.json")
  simp [List.lookup, metadata_path_ne path]

/-- Counterexample to C7 as stated: metadata is provided (`{}`), yet no
sidecar JSON is written; only the blob write happens. -/
theorem C7_counterexample :
    load_json (save_model [] 7 "model.pkl" (some []))
      ("model.pkl" ++ ".metadata.json") = none ∧
    load_bin (save_model [] 7 "model.pkl" (some [])) "model.pkl" =
      some 7 := by
  exact ⟨rfl, rfl⟩

/-- C7 amended: for every non-empty metadata dictionary, `save_model` writes
the blob at `path` and the metadata as a JSON sidecar at
`path + ".metadata.json"`. -/
theorem C7_save_model_sidecar (fs : FS) (model : Nat) (path : String)
    (md : JsonDict) (h : md ≠ []) :
    save_model fs model path (some md) =
      save_json (save_bin fs model path) (path ++ ".metadata.json") md ∧
    load_json (save_model fs model path (some md))
      (path ++ ".metadata.json") = some ⟨md⟩ ∧
    load_bin (save_model fs model path (some md)) path = some model := by
  have hne : md.isEmpty = false := by
    cases md with
    | nil => exact absurd rfl h
    | cons a l => rfl
  refine ⟨?_, ?_, ?_⟩
  · simp [save_model, hne]
  · simp [save_model, hne, load_json, save_json, save_bin, writeFile,
      List.lookup]
  · simp [save_model, hne, load_bin, save_json, save_bin, writeFile,
      List.lookup, metadata_path_ne_left path]

/-- Witness for C7 amended, with a one-entry metadata dict. -/
theorem C7_save_model_sidecar_witness :
    load_json (save_model [] 3 "m.pkl"
        (some [("algorithm", JsonVal.str "XGBoost")]))
      ("m.pkl" ++ ".metadata.json") =
      some ⟨[("algorithm", JsonVal.str "XGBoost")]⟩ ∧
    load_bin (save_model [] 3 "m.pkl"
        (some [("algorithm", JsonVal.str "XGBoost")])) "m.pkl" =
      some 3 := by
  exact ⟨(C7_save_model_sidecar [] 3 "m.pkl" _ (List.cons_ne_nil _ _)).2.1,
    (C7_save_model_sidecar [] 3 "m.pkl" _ (List.cons_ne_nil _ _)).2.2⟩

theorem getD_range_self (l : List Int) :
    (List.range l.length).map (fun i => l.getD i 0) = l := by
  apply List.ext_getElem
  · simp
  · intro n h1 h2
    simp [List.getD_eq_getElem?_getD, List.getElem?_eq_getElem h2]

theorem map_range_getD (l : List Int) (n : Nat) (h : l.length = n) :
    (List.range n).map (fun i => l.getD i 0) = l := by
  subst h
  exact getD_range_self l

theorem headerNames_id (hs : List String) (h : ∀ s ∈ hs, s ≠ "") :
    headerNames hs = hs := by
  apply List.ext_getElem
  · simp [headerNames]
  · intro n h1 h2
    simp only [headerNames, List.getElem_map, List.getElem_enum]
    exact if_neg (h _ (List.getElem_mem h2))

theorem transposeVals_length (colsVals : List (List Int)) (n : Nat) :
    (transposeVals colsVals n).length = n := by
  simp [transposeVals]

theorem transposeVals_col (colsVals : List (List Int)) (n k : Nat)
    (hk : k < colsVals.length)
    (hl : (colsVals.get ⟨k, hk⟩).length = n) :
    (transposeVals colsVals n).map (fun r => r.getD k 0) =
      colsVals.get ⟨k, hk⟩ := by
  simp only [transposeVals, List.map_map, Function.comp]
  have hinner : ∀ i : Nat,
      (colsVals.map (fun c => c.getD i 0)).getD k 0 =
        (colsVals.get ⟨k, hk⟩).getD i 0 := by
    intro i
    have hk2 : k < (colsVals.map (fun c => c.getD i 0)).length := by
      simpa using hk
    rw [List.getD_eq_getElem?_getD, List.getElem?_eq_getElem hk2]
    simp [List.getElem_map, List.get_eq_getElem]
  calc (List.range n).map
        (fun i => (colsVals.map (fun c => c.getD i 0)).getD k 0)
      = (List.range n).map (fun i => (colsVals.get ⟨k, hk⟩).getD i 0) := by
        exact List.map_congr_left (fun i _ => hinner i)
    _ = colsVals.get ⟨k, hk⟩ := map_range_getD _ n hl

theorem read_csv_to_csv (df : CsvFrame)
    (hlen : ∀ c ∈ df.cols, c.2.length = df.index.length)
    (hname : ∀ c ∈ df.cols, c.1 ≠ "")
    (hidx : df.index = (List.range df.index.length).map Int.ofNat) :
    read_csv (to_csv df false) = df := by
  obtain ⟨idx, cols⟩ := df
  simp only [read_csv, to_csv, Bool.false_eq_true, if_false]
  rw [headerNames_id]
  · rw [transposeVals_length]
    simp only [CsvFrame.mk.injEq]
    constructor
    · exact hidx.symm
    · apply List.ext_getElem
      · simp
      · intro k h1 h2
        have hk3 : k < cols.length := by simpa using h2
        simp only [List.getElem_map, List.getElem_enum]
        rw [Prod.ext_iff]
        constructor
        · simp
        · simp only []
          have hcl : ((cols.map Prod.snd).get ⟨k, by simpa using hk3⟩).length
              = idx.length := by
            simp only [List.get_eq_getElem, List.getElem_map]
            exact hlen (cols.get ⟨k, hk3⟩)
              (List.getElem_mem hk3)
          rw [transposeVals_col (cols.map Prod.snd) idx.length k
            (by simpa using hk3) hcl]
          simp [List.get_eq_getElem, List.getElem_map]
  · intro s hs
    obtain ⟨c, hc, rfl⟩ := List.mem_map.1 hs
    exact hname c hc

/-- Counterexample to C2 as stated: a one-column frame saved with
`save_csv`'s defaults (`to_csv` writes the row index) is not reloaded equal by
`load_csv`; the reloaded frame gains a leading `Unnamed: 0` column holding
the old index. -/
theorem C2_counterexample :
    load_csv (save_csv [] (CsvFrame.mk [0] [("a", [5])]) "data.csv" true)
        "data.csv" ≠
      some (CsvFrame.mk [0] [("a", [5])]) ∧
    load_csv (save_csv [] (CsvFrame.mk [0] [("a", [5])]) "data.csv" true)
        "data.csv" =
      some (CsvFrame.mk [0] [("Unnamed: 0", [0]), ("a", [5])]) := by
  exact ⟨by decide, by decide⟩

/-- C2 amended: `load_json` after `save_json` returns the saved dict,
`load_bin` after `save_bin` returns the saved object, and `load_csv` after
`save_csv` returns the saved frame only when the index is not written
(`index=False`) and the frame is well formed (default range index, columns of
index length, no empty column name); with the default `index=True` the
round-trip adds an index column instead.  There is no YAML save helper, so
the YAML direction has nothing to round-trip. -/
theorem C2_roundtrip_amended :
    (∀ fs p d, load_json (save_json fs p d) p = some ⟨d⟩) ∧
    (∀ fs p x, load_bin (save_bin fs x p) p = some x) ∧
    (∀ fs p df,
      (∀ c ∈ CsvFrame.cols df, (Prod.snd c).length = df.index.length) →
      (∀ c ∈ CsvFrame.cols df, Prod.fst c ≠ "") →
      df.index = (List.range df.index.length).map Int.ofNat →
      load_csv (save_csv fs df p false) p = some df) := by
  refine ⟨?_, ?_, ?_⟩
  · intro fs p d
    simp [load_json, save_json, writeFile, List.lookup]
  · intro fs p x
    simp [load_bin, save_bin, writeFile, List.lookup]
  · intro fs p df hlen hname hidx
    have hrt := read_csv_to_csv df hlen hname hidx
    simp [load_csv, save_csv, writeFile, List.lookup, hrt]

/-- Witness for C2 amended on concrete values. -/
theorem C2_roundtrip_amended_witness :
    load_json (save_json [] "r.json" [("rmse", JsonVal.num 3)]) "r.json" =
      some ⟨[("rmse", JsonVal.num 3)]⟩ ∧
    load_bin (save_bin [] 9 "model.pkl") "model.pkl" = some 9 ∧
    load_csv (save_csv [] (CsvFrame.mk [0] [("a", [5])]) "data.csv" false)
        "data.csv" =
      some (CsvFrame.mk [0] [("a", [5])]) := by
  exact ⟨C2_roundtrip_amended.1 [] "r.json" [("rmse", JsonVal.num 3)],
    C2_roundtrip_amended.2.1 [] "model.pkl" 9,
    C2_roundtrip_amended.2.2 [] "data.csv" (CsvFrame.mk [0] [("a", [5])])
      (by decide) (by decide) (by decide)⟩
